import Mathlib

/-
Shallow embedding of the Kubernetes environment lifecycle controller
(src/environment/kubernetes/environment.go) of the kuber repository.

The controller owns a workload identity, metadata, a stream reference,
a log callback slot, an atomic status cell and an event bus.  Backend
queries (Exists / IsRunning / ExitState) go through a Kubernetes client
lookup keyed by the environment id; here the client is passed in as a
function from the id to a lookup outcome.
-/

namespace Kuber

/-- Modelled from the spec: the four enumerated Status values
(Offline, Starting, Running, Stopping).  The string constants live in
the repository package `environment`, which is not under the provided
source tree; only their distinctness matters here. -/
def ProcessOfflineState : String := "offline"

/-- Modelled from the spec: the Starting status value (see
`ProcessOfflineState`). -/
def ProcessStartingState : String := "starting"

/-- Modelled from the spec: the Running status value (see
`ProcessOfflineState`). -/
def ProcessRunningState : String := "running"

/-- Modelled from the spec: the Stopping status value (see
`ProcessOfflineState`). -/
def ProcessStoppingState : String := "stopping"

/-- Modelled from the spec: the single state-change topic the controller
publishes on the Event Channel; the constant lives in the repository
package `environment`, outside the provided source tree. -/
def StateChangeEvent : String := "state change"

/-- `isValidState s` holds exactly when `s` is one of the four
enumerated Status values. -/
def isValidState (s : String) : Bool :=
  s == ProcessOfflineState || s == ProcessStartingState ||
    s == ProcessRunningState || s == ProcessStoppingState

/-- Model of `remote.ProcessStopConfiguration`: an opaque
collaborator-defined shape stored and returned verbatim. -/
structure ProcessStopConfiguration where
  terminate : Bool
deriving DecidableEq

/-- Model of the `Metadata` struct: display image and stop policy. -/
structure Metadata where
  image : String
  stop : ProcessStopConfiguration
deriving DecidableEq

/-- Model of a `remotecommand.Executor` stream handle; only its identity
matters to the controller (nil-ness is captured by `Option`). -/
structure StreamHandle where
  handleId : Nat
deriving DecidableEq

/-- Model of the mutable fields of the `Environment` struct.  The
atomic status cell `st` is a plain field (modelled from the spec:
`system.AtomicString` is a linearizable load/store cell, and the code
here is sequentialized).  The event bus is modelled from the spec as
the list of published `(topic, payload)` pairs, in publish order. -/
structure Environment where
  id : String
  meta : Metadata
  stream : Option StreamHandle
  logCallback : Bool
  st : String
  events : List (String × String)
deriving DecidableEq

/-- `New` constructs a fresh environment bound to an id: status cell
initialized to `ProcessOfflineState`, no stream, no log callback, fresh
event bus. -/
def New (id : String) (m : Metadata) : Environment :=
  { id := id, meta := m, stream := none, logCallback := false,
    st := ProcessOfflineState, events := [] }

/-- `State` loads the atomic status cell. -/
def Environment.State (e : Environment) : String := e.st

/-- `SetStream` replaces the stream reference (nil allowed). -/
def Environment.SetStream (e : Environment) (s : Option StreamHandle) :
    Environment :=
  { e with stream := s }

/-- `IsAttached` checks whether the stream reference is non-nil. -/
def Environment.IsAttached (e : Environment) : Bool := e.stream.isSome

/-- `SetImage` replaces the metadata image. -/
def Environment.SetImage (e : Environment) (i : String) : Environment :=
  { e with meta := { e.meta with image := i } }

/-- `SetStopConfiguration` replaces the metadata stop policy. -/
def Environment.SetStopConfiguration (e : Environment)
    (c : ProcessStopConfiguration) : Environment :=
  { e with meta := { e.meta with stop := c } }

/-- `SetLogCallback` replaces the log callback slot; the boolean records
whether the stored callback is non-nil. -/
def Environment.SetLogCallback (e : Environment) (f : Bool) : Environment :=
  { e with logCallback := f }

/-- A primitive effect performed by `SetState` once validation passed:
a store into the atomic status cell, or a publish on the event bus. -/
inductive Op where
  | store (v : String)
  | publish (topic : String) (payload : String)
deriving DecidableEq

/-- The sequence of effects `SetState` performs after its validation,
read off the source: when the new value differs from the current cell
value it first stores, then publishes the state-change event with the
new value as payload; otherwise it does nothing. -/
def setStateOps (cur s : String) : List Op :=
  if cur != s then [Op.store s, Op.publish StateChangeEvent s] else []

/-- Apply one primitive effect to the environment. -/
def applyOp (e : Environment) : Op → Environment
  | Op.store v => { e with st := v }
  | Op.publish t p => { e with events := e.events ++ [(t, p)] }

/-- Apply a sequence of effects in order. -/
def applyOps (e : Environment) (ops : List Op) : Environment :=
  ops.foldl applyOp e

/-- The value a listener sees in the status cell if it loads the cell
from within the first publish of an effect sequence: stores preceding
the publish are applied, anything after is not. -/
def cellAtFirstPublish : String → List Op → Option String
  | _, [] => none
  | _, Op.store v :: rest => cellAtFirstPublish v rest
  | cur, Op.publish _ _ :: _ => some cur

/-- Outcome of `SetState`: in Go the method returns nothing and panics
on an invalid argument, so the embedding distinguishes a fatal abort
(carrying the panic message) from normal completion. -/
inductive SetStateResult where
  | panicked (msg : String)
  | completed (e : Environment)
deriving DecidableEq

/-- `SetState` validates the argument against the four enumerated
values — any other value is a fatal panic — then, when the new value
differs from the current one, stores it and publishes the state-change
event, in that order. -/
def Environment.SetState (e : Environment) (state : String) :
    SetStateResult :=
  if state != ProcessOfflineState && state != ProcessStartingState &&
      state != ProcessRunningState && state != ProcessStoppingState then
    SetStateResult.panicked ("invalid server state received: " ++ state)
  else
    SetStateResult.completed (applyOps e (setStateOps e.st state))

/-- Backend (Kubernetes API) lookup error: either the not-found error
recognized by `apierrors.IsNotFound`, or any other error. -/
inductive K8sError where
  | notFound
  | other (msg : String)
deriving DecidableEq

/-- Model of `apierrors.IsNotFound`. -/
def K8sError.isNotFound : K8sError → Bool
  | K8sError.notFound => true
  | K8sError.other _ => false

/-- Model of `v1.ContainerStateTerminated`: the raw exit code is an
`int32` in the Kubernetes API, embedded as an `Int`. -/
structure ContainerStateTerminated where
  exitCode : Int
deriving DecidableEq

/-- Model of `v1.ContainerState`: only the terminated record is read. -/
structure ContainerState where
  terminated : Option ContainerStateTerminated
deriving DecidableEq

/-- Model of `v1.ContainerStatus`: only the state field is read. -/
structure ContainerStatus where
  state : ContainerState
deriving DecidableEq

/-- The Kubernetes `v1.PodRunning` phase constant. -/
def PodRunning : String := "Running"

/-- Model of `v1.PodStatus`: phase and container statuses. -/
structure PodStatus where
  phase : String
  containerStatuses : List ContainerStatus
deriving DecidableEq

/-- Model of `v1.Pod`: only the status is read. -/
structure Pod where
  status : PodStatus
deriving DecidableEq

/-- A Kubernetes client lookup, keyed by the pod name (the environment
id): either a pod or a backend error. -/
def Client : Type := String → Except K8sError Pod

/-- Go conversion `uint32(x)` applied to an `int32` value: the value
reduced modulo 2^32 into the range [0, 2^32). -/
def uint32ofInt32 (x : Int) : Nat := (x % (2 ^ 32)).toNat

/-- `Exists` looks the pod up by id; a not-found error becomes
`(false, nil)`, any other error propagates, success is `(true, nil)`. -/
def Environment.ExistsCheck (e : Environment) (client : Client) :
    Bool × Option K8sError :=
  match client e.id with
  | Except.error err =>
      if err.isNotFound then (false, none) else (false, some err)
  | Except.ok _ => (true, none)

/-- `IsRunning` looks the pod up by id; any error propagates, otherwise
the result is whether the pod phase is `PodRunning`. -/
def Environment.IsRunning (e : Environment) (client : Client) :
    Bool × Option K8sError :=
  match client e.id with
  | Except.error err => (false, some err)
  | Except.ok c =>
      if c.status.phase == PodRunning then (true, none) else (false, none)

/-- `ExitState` looks the pod up by id and translates its termination
record: not-found yields the heuristic `(1, false, nil)`, any other
error yields `(0, false, err)`; with a pod in hand, a terminated record
on the first container status yields `(137, true, nil)` when the raw
code is 137 and `(uint32(code), false, nil)` otherwise, and every other
shape falls through to the default `(1, false, nil)`. -/
def Environment.ExitState (e : Environment) (client : Client) :
    Nat × Bool × Option K8sError :=
  match client e.id with
  | Except.error err =>
      if err.isNotFound then (1, false, none) else (0, false, some err)
  | Except.ok c =>
      match c.status.containerStatuses with
      | [] => (1, false, none)
      | cs :: _ =>
          match cs.state.terminated with
          | some t =>
              if t.exitCode = 137 then (137, true, none)
              else (uint32ofInt32 t.exitCode, false, none)
          | none => (1, false, none)

/-- `hasTerminationData p` holds when the pod carries terminated-state
data where `ExitState` reads it: a first container status with a
non-nil terminated record. -/
def hasTerminationData (p : Pod) : Bool :=
  match p.status.containerStatuses with
  | [] => false
  | cs :: _ => cs.state.terminated.isSome

/-- States reachable from construction through the controller's
mutating operations; `SetState` contributes a step only when it
completes (a panic aborts the program and yields no new state). -/
inductive Reachable : Environment → Prop where
  | init (id : String) (m : Metadata) : Reachable (New id m)
  | setState (e e2 : Environment) (s : String) : Reachable e →
      e.SetState s = SetStateResult.completed e2 → Reachable e2
  | setStream (e : Environment) (s : Option StreamHandle) :
      Reachable e → Reachable (e.SetStream s)
  | setImage (e : Environment) (i : String) :
      Reachable e → Reachable (e.SetImage i)
  | setStopConfiguration (e : Environment) (c : ProcessStopConfiguration) :
      Reachable e → Reachable (e.SetStopConfiguration c)
  | setLogCallback (e : Environment) (f : Bool) :
      Reachable e → Reachable (e.SetLogCallback f)

end Kuber

namespace Kuber

/-- A concrete freshly constructed environment, used to instantiate
theorems at a concrete input. -/
def env0 : Environment :=
  New "s1" { image := "img", stop := { terminate := false } }

/-- A concrete pod whose first container status carries a terminated
record with raw exit code 5. -/
def podTerm5 : Pod :=
  { status := { phase := "Succeeded",
                containerStatuses :=
                  [{ state := { terminated := some { exitCode := 5 } } }] } }

/-- The validation guard of `SetState` is the negation of
`isValidState`. -/
lemma setState_guard (s : String) :
    (s != ProcessOfflineState && s != ProcessStartingState &&
      s != ProcessRunningState && s != ProcessStoppingState) =
      !(isValidState s) := by
  simp [isValidState, bne, Bool.not_or, Bool.and_assoc]

/-- Running `SetState` on a valid value completes with the effect
sequence applied. -/
lemma setState_run_valid (e : Environment) (s : String)
    (hv : isValidState s = true) :
    e.SetState s =
      SetStateResult.completed (applyOps e (setStateOps e.st s)) := by
  unfold Environment.SetState
  rw [setState_guard, hv]
  simp

/-- Running `SetState` on an invalid value panics with the source's
message. -/
lemma setState_run_invalid (e : Environment) (s : String)
    (hv : isValidState s = false) :
    e.SetState s =
      SetStateResult.panicked ("invalid server state received: " ++ s) := by
  unfold Environment.SetState
  rw [setState_guard, hv]
  simp

/-- When the new value differs from the cell value, the effect sequence
is store-then-publish. -/
lemma setStateOps_of_ne (cur s : String) (h : cur ≠ s) :
    setStateOps cur s = [Op.store s, Op.publish StateChangeEvent s] := by
  simp [setStateOps, bne_iff_ne, h]

/-- When the new value equals the cell value, the effect sequence is
empty. -/
lemma setStateOps_of_eq (cur s : String) (h : cur = s) :
    setStateOps cur s = [] := by
  simp [setStateOps, h]

end Kuber

namespace Kuber

/-- C1: for every valid Status value differing from the stored one,
`SetState` completes, stores the new value first and then publishes
exactly one state-change event carrying it, so the cell read from
within the publish (and afterwards) already holds the new value. -/
theorem setState_change_stores_then_publishes (e : Environment) (s : String)
    (hv : isValidState s = true) (hne : e.st ≠ s) :
    ∃ e2, e.SetState s = SetStateResult.completed e2 ∧
      e2.State = s ∧
      e2.events = e.events ++ [(StateChangeEvent, s)] ∧
      setStateOps e.st s = [Op.store s, Op.publish StateChangeEvent s] ∧
      cellAtFirstPublish e.st (setStateOps e.st s) = some s := by
  refine ⟨applyOps e (setStateOps e.st s), setState_run_valid e s hv,
    ?_, ?_, setStateOps_of_ne _ _ hne, ?_⟩
  · rw [setStateOps_of_ne _ _ hne]
    rfl
  · rw [setStateOps_of_ne _ _ hne]
    rfl
  · rw [setStateOps_of_ne _ _ hne]
    rfl

/-- Witness for C1 at a concrete input: a fresh environment is offline,
so setting it to the running state stores then publishes. -/
theorem setState_change_stores_then_publishes_witness :
    isValidState ProcessRunningState = true ∧ env0.st ≠ ProcessRunningState ∧
      ∃ e2, env0.SetState ProcessRunningState = SetStateResult.completed e2 ∧
        e2.State = ProcessRunningState ∧
        e2.events = env0.events ++ [(StateChangeEvent, ProcessRunningState)] ∧
        setStateOps env0.st ProcessRunningState =
          [Op.store ProcessRunningState,
            Op.publish StateChangeEvent ProcessRunningState] ∧
        cellAtFirstPublish env0.st (setStateOps env0.st ProcessRunningState) =
          some ProcessRunningState :=
  ⟨by decide, by decide,
    setState_change_stores_then_publishes env0 ProcessRunningState
      (by decide) (by decide)⟩

/-- C2: `SetState` with a valid value equal to the stored one completes
with the environment unchanged — nothing stored, nothing published. -/
theorem setState_same_value_noop (e : Environment) (s : String)
    (hv : isValidState s = true) (heq : e.st = s) :
    e.SetState s = SetStateResult.completed e := by
  rw [setState_run_valid e s hv, setStateOps_of_eq _ _ heq]
  rfl

/-- Witness for C2 at a concrete input: setting a fresh environment to
the offline state it already holds is a no-op. -/
theorem setState_same_value_noop_witness :
    isValidState ProcessOfflineState = true ∧
      env0.st = ProcessOfflineState ∧
      env0.SetState ProcessOfflineState = SetStateResult.completed env0 :=
  ⟨by decide, by decide,
    setState_same_value_noop env0 ProcessOfflineState (by decide) (by decide)⟩

/-- C3: `SetState` with a string outside the four enumerated values
panics with the source's message — it never completes, so nothing is
coerced, stored or ignored. -/
theorem setState_invalid_value_panics (e : Environment) (s : String)
    (hv : isValidState s = false) :
    e.SetState s =
      SetStateResult.panicked ("invalid server state received: " ++ s) :=
  setState_run_invalid e s hv

/-- Witness for C3 at a concrete input: an out-of-enumeration string
makes `SetState` panic. -/
theorem setState_invalid_value_panics_witness :
    isValidState "bogus" = false ∧
      env0.SetState "bogus" =
        SetStateResult.panicked ("invalid server state received: " ++ "bogus") :=
  ⟨by decide, setState_invalid_value_panics env0 "bogus" (by decide)⟩

end Kuber

namespace Kuber

/-- The cell value after running the `SetState` effect sequence is
either the new value or the old one. -/
lemma st_applyOps_setStateOps (e : Environment) (s : String) :
    (applyOps e (setStateOps e.st s)).st = s ∨
      (applyOps e (setStateOps e.st s)).st = e.st := by
  by_cases h : e.st = s
  · right
    rw [setStateOps_of_eq _ _ h]
    rfl
  · left
    rw [setStateOps_of_ne _ _ h]
    rfl

/-- C8: every reachable environment stores one of the four enumerated
Status values — construction starts at Offline with a nil stream, and
`SetState`, the only status mutator, either panics or stores one of the
four — so `State` always returns one of the four. -/
theorem reachable_state_valid (e : Environment) (h : Reachable e) :
    isValidState e.State = true := by
  induction h with
  | init id m =>
      show isValidState ProcessOfflineState = true
      decide
  | setState e e2 s hr hcomp ih =>
      cases hval : isValidState s with
      | false =>
          rw [setState_run_invalid e s hval] at hcomp
          exact absurd hcomp (by simp)
      | true =>
          rw [setState_run_valid e s hval] at hcomp
          have he2 : e2 = applyOps e (setStateOps e.st s) :=
            ((SetStateResult.completed.injEq _ _).mp hcomp).symm
          subst he2
          unfold Environment.State
          rcases st_applyOps_setStateOps e s with hst | hst
          · rw [hst]
            exact hval
          · rw [hst]
            exact ih
  | setStream e s hr ih => exact ih
  | setImage e i hr ih => exact ih
  | setStopConfiguration e c hr ih => exact ih
  | setLogCallback e f hr ih => exact ih

/-- Witness for C8 at a concrete input: a freshly constructed
environment is reachable and its status is one of the four. -/
theorem reachable_state_valid_witness :
    isValidState env0.State = true :=
  reachable_state_valid _
    (Reachable.init "s1" { image := "img", stop := { terminate := false } })

end Kuber

namespace Kuber

/-- C4: with a located pod whose first container status carries a
terminated record, `ExitState` returns `(137, true, nil)` exactly when
the raw exit code is 137, and otherwise returns the raw code widened to
an unsigned 32-bit integer together with `(false, nil)`. -/
theorem exitState_terminated_translation (e : Environment) (client : Client)
    (p : Pod) (cs : ContainerStatus) (rest : List ContainerStatus)
    (t : ContainerStateTerminated)
    (hc : client e.id = Except.ok p)
    (hcs : p.status.containerStatuses = cs :: rest)
    (ht : cs.state.terminated = some t)
    (_hrange : -(2 ^ 31) ≤ t.exitCode ∧ t.exitCode < 2 ^ 31) :
    (t.exitCode = 137 → e.ExitState client = (137, true, none)) ∧
    (t.exitCode ≠ 137 →
      e.ExitState client = (uint32ofInt32 t.exitCode, false, none)) := by
  constructor
  · intro h137
    simp [Environment.ExitState, hc, hcs, ht, h137]
  · intro hne
    simp [Environment.ExitState, hc, hcs, ht, hne]

/-- Witness for C4 at a concrete input: a pod terminated with raw exit
code 5 yields exit code 5, not OOM-killed. -/
theorem exitState_terminated_translation_witness :
    env0.ExitState (fun _ => Except.ok podTerm5) =
      (uint32ofInt32 5, false, none) :=
  (exitState_terminated_translation env0 (fun _ => Except.ok podTerm5)
    podTerm5 { state := { terminated := some { exitCode := 5 } } } []
    { exitCode := 5 } rfl rfl rfl (by decide)).2 (by decide)

/-- C5: `ExitState` returns the heuristic default `(1, false, nil)` in
both degenerate cases — the backend reports not-found, or the pod is
located but carries no terminated-state data where the code reads it. -/
theorem exitState_degenerate_default (e : Environment) (client : Client)
    (h : client e.id = Except.error K8sError.notFound ∨
      ∃ p, client e.id = Except.ok p ∧ hasTerminationData p = false) :
    e.ExitState client = (1, false, none) := by
  rcases h with hnf | ⟨p, hp, hterm⟩
  · simp [Environment.ExitState, hnf, K8sError.isNotFound]
  · cases hcs : p.status.containerStatuses with
    | nil => simp [Environment.ExitState, hp, hcs]
    | cons cs rest =>
        cases hterm2 : cs.state.terminated with
        | some t =>
            rw [hasTerminationData, hcs] at hterm
            simp [hterm2] at hterm
        | none => simp [Environment.ExitState, hp, hcs, hterm2]

/-- Witness for C5 at a concrete input: a not-found backend yields the
default `(1, false, nil)`. -/
theorem exitState_degenerate_default_witness :
    env0.ExitState (fun _ => Except.error K8sError.notFound) =
      (1, false, none) :=
  exitState_degenerate_default env0 _ (Or.inl rfl)

/-- C6: `ExistsCheck` translates a not-found lookup error to
`(false, nil)`, propagates any other lookup error unchanged with
`false`, and returns `(true, nil)` on a successful lookup. -/
theorem exists_translation (e : Environment) (client : Client) :
    (client e.id = Except.error K8sError.notFound →
      e.ExistsCheck client = (false, none)) ∧
    (∀ msg, client e.id = Except.error (K8sError.other msg) →
      e.ExistsCheck client = (false, some (K8sError.other msg))) ∧
    (∀ p, client e.id = Except.ok p →
      e.ExistsCheck client = (true, none)) := by
  refine ⟨fun hnf => ?_, fun msg hor => ?_, fun p hok => ?_⟩
  · simp [Environment.ExistsCheck, hnf, K8sError.isNotFound]
  · simp [Environment.ExistsCheck, hor, K8sError.isNotFound]
  · simp [Environment.ExistsCheck, hok]

/-- Witness for C6 at concrete inputs: all three lookup outcomes. -/
theorem exists_translation_witness :
    env0.ExistsCheck (fun _ => Except.error K8sError.notFound) =
      (false, none) ∧
    env0.ExistsCheck (fun _ => Except.error (K8sError.other "boom")) =
      (false, some (K8sError.other "boom")) ∧
    env0.ExistsCheck (fun _ => Except.ok podTerm5) = (true, none) :=
  ⟨(exists_translation env0 _).1 rfl,
    (exists_translation env0 _).2.1 "boom" rfl,
    (exists_translation env0 _).2.2 podTerm5 rfl⟩

/-- C7: `IsRunning` returns `(true, nil)` exactly when the lookup
succeeds with a pod in the running phase, and propagates every lookup
error (not-found included) unchanged with `false`. -/
theorem isRunning_characterization (e : Environment) (client : Client) :
    (e.IsRunning client = (true, none) ↔
      ∃ p, client e.id = Except.ok p ∧ p.status.phase = PodRunning) ∧
    (∀ err, client e.id = Except.error err →
      e.IsRunning client = (false, some err)) := by
  constructor
  · cases hc : client e.id with
    | error err => simp [Environment.IsRunning, hc]
    | ok c =>
        by_cases hp : c.status.phase = PodRunning
        · simp [Environment.IsRunning, hc, hp]
        · simp [Environment.IsRunning, hc, hp]
  · intro err hc
    simp [Environment.IsRunning, hc]

/-- Witness for C7 at a concrete input: a failing lookup propagates the
error with `false`. -/
theorem isRunning_characterization_witness :
    env0.IsRunning (fun _ => Except.error (K8sError.other "boom")) =
      (false, some (K8sError.other "boom")) :=
  (isRunning_characterization env0
    (fun _ => Except.error (K8sError.other "boom"))).2
    (K8sError.other "boom") rfl

/-- C9: after `SetStream (some h)` the environment reports attached,
after `SetStream none` it reports detached, and in general `IsAttached`
reports exactly whether the most recently set stream is non-nil. -/
theorem setStream_isAttached (e : Environment) :
    (∀ h : StreamHandle, (e.SetStream (some h)).IsAttached = true) ∧
    ((e.SetStream none).IsAttached = false) ∧
    (∀ s : Option StreamHandle, (e.SetStream s).IsAttached = s.isSome) :=
  ⟨fun _ => rfl, rfl, fun s => by cases s <;> rfl⟩

/-- C10: a lookup error other than not-found makes `ExitState` return
exit code 0 with `false` and the error propagated unchanged — an exit
code distinct from the heuristic default 1 of the not-found case. -/
theorem exitState_error_exit_code_zero (e : Environment) (client : Client)
    (msg : String) (hc : client e.id = Except.error (K8sError.other msg)) :
    e.ExitState client = (0, false, some (K8sError.other msg)) ∧
    (e.ExitState client).1 ≠
      (e.ExitState (fun _ => Except.error K8sError.notFound)).1 := by
  constructor
  · simp [Environment.ExitState, hc, K8sError.isNotFound]
  · simp [Environment.ExitState, hc, K8sError.isNotFound]

/-- Witness for C10 at a concrete input: a generic backend error gives
exit code 0 and propagates, unlike the not-found default of 1. -/
theorem exitState_error_exit_code_zero_witness :
    env0.ExitState (fun _ => Except.error (K8sError.other "boom")) =
      (0, false, some (K8sError.other "boom")) ∧
    (env0.ExitState (fun _ => Except.error (K8sError.other "boom"))).1 ≠
      (env0.ExitState (fun _ => Except.error K8sError.notFound)).1 :=
  exitState_error_exit_code_zero env0
    (fun _ => Except.error (K8sError.other "boom")) "boom" rfl

end Kuber
